import Mathlib

/-!
Shallow embedding of the `WebAssemblyRuntime` class from the Wasmify
repository (src/unnamed/part_001, `lib/wasm-runtime`).

The class keeps two JavaScript `Map`s (`moduleCache`, `activeInstances`);
we model them as association lists with `Map.set` / `Map.get` /
`Map.delete` semantics (set updates in place when the key exists,
appends otherwise).  `Date.now()` timestamps, the SHA-256 digest and the
Wasmtime engine are host inputs; they are passed in explicitly (the
digest as an abstract hash function, the engine as a map from compiled
module bytes and export name to the guest function's behaviour).  A
`compileCount` ghost field counts calls of `engine.module` (the
"compile-counter test double" of the spec); it instruments the single
call site in `loadModule` and changes no behaviour.
-/

deriving instance DecidableEq for Except

namespace Wasmify

/-- JavaScript `Map.get`: the value stored at `k`, if any. -/
def mapGet {α : Type} : List (String × α) → String → Option α
  | [], _ => none
  | p :: t, k => if p.1 == k then some p.2 else mapGet t k

/-- JavaScript `Map.set`: update in place if the key is present, else append. -/
def mapSet {α : Type} (m : List (String × α)) (k : String) (v : α) :
    List (String × α) :=
  if m.any (fun p => p.1 == k) then
    m.map (fun p => if p.1 == k then (k, v) else p)
  else
    m ++ [(k, v)]

/-- JavaScript `Map.delete`: drop the entry stored at `k`. -/
def mapDelete {α : Type} (m : List (String × α)) (k : String) :
    List (String × α) :=
  m.filter (fun p => !(p.1 == k))

/-- Source `WasmModuleConfig` (part_001 lines 6-11): all fields optional. -/
structure WasmModuleConfig where
  memory : Option (Nat × Nat) := none
  maxExecutionTime : Option Nat := none
  maxInstructions : Option Nat := none
  enableWasi : Option Bool := none
deriving DecidableEq, Repr

/-- Source `WasmExecutionConfig` (part_001 lines 267-273): `WasmModuleConfig`
plus an opaque import map (modelled as a list of import names). -/
structure WasmExecutionConfig where
  memory : Option (Nat × Nat) := none
  maxExecutionTime : Option Nat := none
  maxInstructions : Option Nat := none
  enableWasi : Option Bool := none
  imports : List String := []
deriving DecidableEq, Repr

/-- Source `WasmExecutionResult` (part_001 lines 13-20).  `result : any` is
modelled as an optional integer (wasm scalar result; `null` = `none`). -/
structure WasmExecutionResult where
  result : Option Int
  executionTime : Nat
  memoryUsed : Nat
  instructions : Nat
  success : Bool
  error : Option String := none
deriving DecidableEq, Repr

/-- The record stored in `moduleCache` (part_001 lines 55-60):
`{module, config, loadedAt, size}`.  The compiled `module` handle is
opaque in the source; we represent it by the bytes it was compiled from
(the engine interprets them). -/
structure ModuleRecord where
  moduleBytes : List Nat
  config : WasmModuleConfig
  loadedAt : Nat
  size : Nat
deriving DecidableEq, Repr

/-- The record stored in `activeInstances` (part_001 lines 90-95):
`{instance, moduleId, functionName, createdAt}`.  The opaque `instance`
handle is dropped.  The JavaScript object has NO `memoryUsed` property;
`getStats` nevertheless reads `instance.memoryUsed || 0`, so we carry
the field as an `Option` that every writer leaves `none`. -/
structure InstanceEntry where
  moduleId : String
  functionName : String
  createdAt : Nat
  memoryUsed : Option Nat := none
deriving DecidableEq, Repr

/-- The mutable state of a `WebAssemblyRuntime` object, plus the
`compileCount` ghost counter for `engine.module` calls. -/
structure RuntimeState where
  moduleCache : List (String × ModuleRecord)
  activeInstances : List (String × InstanceEntry)
  compileCount : Nat
deriving DecidableEq, Repr

/-- The state right after `new WebAssemblyRuntime()` (part_001 lines 24-29). -/
def initialState : RuntimeState :=
  { moduleCache := [], activeInstances := [], compileCount := 0 }

/-- Host inputs: the SHA-256 hex digest used by `generateModuleId`, the
engine's export table (from compiled-module bytes and export name to the
guest function, which returns a value or traps), and the values produced
by `getMemoryUsage` / `getInstructionCount` for the instance. -/
structure Host where
  hashHex : List Nat → String
  exportsOf : List Nat → String → Option (List Int → Except String Int)
  memUsage : Nat
  instructions : Nat

/-- Node `Buffer.readUInt32LE(off)`: little-endian 32-bit read; Node throws a
range error when fewer than four bytes are available at `off`. -/
def readUInt32LE (buffer : List Nat) (off : Nat) : Except String Nat :=
  if off + 4 ≤ buffer.length then
    .ok (buffer.getD off 0 + 256 * buffer.getD (off + 1) 0 +
         65536 * buffer.getD (off + 2) 0 + 16777216 * buffer.getD (off + 3) 0)
  else
    .error "The value of offset is out of range"

/-- Source `validateWasmBinary` (part_001 lines 150-160): read the first four
bytes as the magic number, then the next four as the version; a range
error from either read propagates like any other thrown error. -/
def validateWasmBinary (buffer : List Nat) : Except String Unit :=
  match readUInt32LE buffer 0 with
  | .error e => .error e
  | .ok magic =>
    if magic ≠ 0x6d736100 then
      .error "Invalid WebAssembly binary: wrong magic number"
    else
      match readUInt32LE buffer 4 with
      | .error e => .error e
      | .ok version =>
        if version ≠ 1 then
          .error ("Unsupported WebAssembly version: " ++ toString version)
        else
          .ok ()

/-- Source `generateModuleId` (part_001 lines 165-173): first 16 hex characters
of the SHA-256 digest of the bytes. -/
def generateModuleId (host : Host) (wasmData : List Nat) : String :=
  (host.hashHex wasmData).take 16

/-- Source `generateInstanceId` (part_001 lines 178-180):
`` `${moduleId}-${functionName}-${Date.now()}` ``. -/
def generateInstanceId (moduleId functionName : String) (now : Nat) : String :=
  moduleId ++ "-" ++ functionName ++ "-" ++ toString now

/-- The data carried across the `await this.engine.module(...)`
suspension point inside `loadModule`. -/
structure LoadPending where
  moduleId : String
  bytes : List Nat
  config : WasmModuleConfig
deriving DecidableEq, Repr

/-- Outcome of the synchronous prefix of `loadModule`. -/
inductive LoadPhaseOutcome where
  | hit (moduleId : String)
  | invalid (msg : String)
  | pending (p : LoadPending)
deriving DecidableEq, Repr

/-- The synchronous prefix of `loadModule` (part_001 lines 36-49, buffer
argument): compute the module id, return it on a cache hit, otherwise
validate the bytes; on success the call suspends at
`await this.engine.module(wasmBuffer)`.  Reads the state, writes nothing. -/
def loadPhaseA (host : Host) (bytes : List Nat) (config : WasmModuleConfig)
    (s : RuntimeState) : LoadPhaseOutcome :=
  let moduleId := generateModuleId host bytes
  match mapGet s.moduleCache moduleId with
  | some _ => .hit moduleId
  | none =>
    match validateWasmBinary bytes with
    | .error e => .invalid e
    | .ok _ => .pending ⟨moduleId, bytes, config⟩

/-- The rest of `loadModule` after the suspension (part_001 lines 52-62):
the engine compile completes (counted in `compileCount`) and the record
is stored in the cache. -/
def loadPhaseB (now : Nat) (p : LoadPending) (s : RuntimeState) :
    String × RuntimeState :=
  (p.moduleId,
   { s with
     compileCount := s.compileCount + 1,
     moduleCache := mapSet s.moduleCache p.moduleId
       { moduleBytes := p.bytes, config := p.config,
         loadedAt := now, size := p.bytes.length } })

/-- Source `loadModule` (part_001 lines 34-66, buffer argument) run to
completion with no interleaved call: phase A, then phase B when the
cache missed; a validation error is re-thrown wrapped in
`Failed to load WebAssembly module: ...`. -/
def loadModule (host : Host) (now : Nat) (bytes : List Nat)
    (config : WasmModuleConfig) (s : RuntimeState) :
    Except String String × RuntimeState :=
  match loadPhaseA host bytes config s with
  | .hit moduleId => (.ok moduleId, s)
  | .invalid e => (.error ("Failed to load WebAssembly module: " ++ e), s)
  | .pending p =>
    let r := loadPhaseB now p s
    (.ok r.1, r.2)

/-- The failure result built in the `catch` block of `executeFunction`
(part_001 lines 116-125): everything zeroed, `success: false`, and the
caught message in `error`. -/
def failResult (msg : String) : WasmExecutionResult :=
  { result := none, executionTime := 0, memoryUsed := 0,
    instructions := 0, success := false, error := some msg }

/-- Source `executeFunction` (part_001 lines 71-126).  `t0` is `Date.now()` at
entry (also used by `generateInstanceId`), `tEnd` is `Date.now()` after
the guest returns.  `createInstance` (lines 131-145) is called first, at
line 86: when `config.enableWasi` is truthy it builds the wasi stub from
`createWasi()` (lines 185-192) — a plain object with no `start` method —
and `wasi.start(instance)` throws a TypeError before the
`activeInstances.set` at line 90; with `enableWasi` falsy the instance is
produced (the engine's `instantiate` is abstracted as succeeding).
Thrown errors (module missing, wasi-start TypeError, export missing,
guest trap) flow to the `catch` block, which returns `failResult` and —
as in the source — does NOT delete the active-instance entry; only the
success path deletes it. -/
def executeFunction (host : Host) (t0 tEnd : Nat) (s : RuntimeState)
    (moduleId functionName : String) (args : List Int)
    (config : WasmExecutionConfig) : WasmExecutionResult × RuntimeState :=
  match mapGet s.moduleCache moduleId with
  | none => (failResult ("Module " ++ moduleId ++ " not found"), s)
  | some rec =>
    if config.enableWasi = some true then
      (failResult "wasi.start is not a function", s)
    else
    let instanceId := generateInstanceId moduleId functionName t0
    let s1 := { s with
      activeInstances := mapSet s.activeInstances instanceId
        { moduleId := moduleId, functionName := functionName,
          createdAt := t0, memoryUsed := none } }
    match host.exportsOf rec.moduleBytes functionName with
    | none =>
      (failResult ("Function " ++ functionName ++ " not found in module"), s1)
    | some f =>
      match f args with
      | .error msg => (failResult msg, s1)
      | .ok v =>
        let s2 := { s1 with
          activeInstances := mapDelete s1.activeInstances instanceId }
        ({ result := some v, executionTime := tEnd - t0,
           memoryUsed := host.memUsage, instructions := host.instructions,
           success := true, error := none }, s2)

/-- Source `calculateCacheHitRate` (part_001 lines 240-243): hard-coded `0.95`. -/
def calculateCacheHitRate : ℚ := 95 / 100

/-- The snapshot returned by `getStats`. -/
structure RuntimeStats where
  loadedModules : Nat
  activeInstances : Nat
  totalMemoryUsage : Nat
  cacheHitRate : ℚ
deriving DecidableEq, Repr

/-- Source `getStats` (part_001 lines 220-235): map sizes, the sum of
`instance.memoryUsed || 0` over active instances, and the cache hit
rate. -/
def getStats (s : RuntimeState) : RuntimeStats :=
  { loadedModules := s.moduleCache.length,
    activeInstances := s.activeInstances.length,
    totalMemoryUsage :=
      (s.activeInstances.map (fun e => (e.2.memoryUsed).getD 0)).sum,
    cacheHitRate := calculateCacheHitRate }

/-- Source `clearCache` (part_001 lines 248-250): `moduleCache.clear()`,
unconditionally. -/
def clearCache (s : RuntimeState) : RuntimeState :=
  { s with moduleCache := [] }

/-- Source `cleanupInstances` (part_001 lines 255-264): delete every active
instance whose age exceeds five minutes. -/
def cleanupInstances (now : Nat) (s : RuntimeState) : RuntimeState :=
  { s with
    activeInstances := s.activeInstances.filter
      (fun e => !(decide (300000 < now - e.2.createdAt))) }

/-- States reachable from a fresh runtime by the class's public
operations (under arbitrary hosts, clocks and arguments), including the
completion half of a suspended `loadModule`. -/
inductive Reachable : RuntimeState → Prop
  | init : Reachable initialState
  | load (host : Host) (now : Nat) (bytes : List Nat)
      (config : WasmModuleConfig) (s : RuntimeState) :
      Reachable s → Reachable (loadModule host now bytes config s).2
  | loadB (now : Nat) (p : LoadPending) (s : RuntimeState) :
      Reachable s → Reachable (loadPhaseB now p s).2
  | exec (host : Host) (t0 tEnd : Nat) (s : RuntimeState)
      (moduleId functionName : String) (args : List Int)
      (config : WasmExecutionConfig) :
      Reachable s →
      Reachable (executeFunction host t0 tEnd s moduleId functionName args config).2
  | clear (s : RuntimeState) : Reachable s → Reachable (clearCache s)
  | cleanup (now : Nat) (s : RuntimeState) :
      Reachable s → Reachable (cleanupInstances now s)

/-! ### Concrete host, bytes and states used by witnesses and counterexamples -/

/-- The eight bytes of a minimal valid module header: magic `\0asm`
followed by version 1, little-endian. -/
def goodBytes : List Nat := [0, 97, 115, 109, 1, 0, 0, 0]

/-- A concrete host: a fixed digest, a module exporting `run` (returns 7)
and `boom` (traps). -/
def demoHost : Host :=
  { hashHex := fun _ => "0123456789abcdef",
    exportsOf := fun _ fn =>
      if fn = "run" then some (fun _ => .ok 7)
      else if fn = "boom" then some (fun _ => .error "wasm trap: unreachable")
      else none,
    memUsage := 65536,
    instructions := 1000 }

/-- The module id the demo host assigns to `goodBytes`. -/
def demoId : String := generateModuleId demoHost goodBytes

/-- The cache record `loadModule demoHost 0 goodBytes` stores. -/
def demoRecord : ModuleRecord :=
  { moduleBytes := goodBytes, config := {}, loadedAt := 0, size := 8 }

/-- The runtime state after loading `goodBytes` into a fresh runtime. -/
def demoLoaded : RuntimeState :=
  (loadModule demoHost 0 goodBytes {} initialState).2

/-- The state after a failed invocation (missing export) on `demoLoaded`:
the `catch` path of `executeFunction` was taken. -/
def demoLeaked : RuntimeState :=
  (executeFunction demoHost 1 2 demoLoaded demoId "nope" [] {}).2

/-- Modelled from the spec: the Binary Validator contract of section 4.1,
which the source's `validateWasmBinary` is claimed to refine.  Checks, in
order: (a) length at least 8 bytes; (b) magic; (c) version; (d) size at
most a configured maximum; fails fast with a reason specific to each
failure mode.  Used only to compare against the source validator. -/
def validateSpec (maxSize : Nat) (buffer : List Nat) : Except String Unit :=
  if buffer.length < 8 then
    .error "module too short: need at least 8 bytes"
  else if buffer.getD 0 0 + 256 * buffer.getD 1 0 + 65536 * buffer.getD 2 0 +
      16777216 * buffer.getD 3 0 ≠ 0x6d736100 then
    .error "wrong magic number"
  else if buffer.getD 4 0 + 256 * buffer.getD 5 0 + 65536 * buffer.getD 6 0 +
      16777216 * buffer.getD 7 0 ≠ 1 then
    .error "unsupported version"
  else if maxSize < buffer.length then
    .error "module exceeds configured maximum size"
  else
    .ok ()

/-- A 16-byte buffer with a valid header: accepted by the source
validator no matter its size. -/
def bigBytes : List Nat := goodBytes ++ List.replicate 8 0

/-- Both halves of the interleaved double load of `goodBytes`. -/
def demoPending : LoadPending := { moduleId := demoId, bytes := goodBytes, config := {} }

/-- Entries of the active-instance map never carry a `memoryUsed` value:
the JavaScript object stored by `executeFunction` has no such property. -/
def InstancesUntracked (s : RuntimeState) : Prop :=
  ∀ e ∈ s.activeInstances, e.2.memoryUsed = none

/-! ### Association-list lemmas for the JavaScript `Map` model -/

theorem mapGet_of_not_mem {α : Type} {m : List (String × α)} {k : String}
    (h : m.any (fun p => p.1 == k) = false) : mapGet m k = none := by
  induction m with
  | nil => rfl
  | cons q t ih =>
    simp only [List.any_cons, Bool.or_eq_false_iff] at h
    simp [mapGet, h.1, ih h.2]

theorem mapGet_map_update_self {α : Type} {m : List (String × α)} {k : String}
    {v : α} (h : m.any (fun p => p.1 == k) = true) :
    mapGet (m.map (fun p => if p.1 == k then (k, v) else p)) k = some v := by
  induction m with
  | nil => simp at h
  | cons q t ih =>
    cases hq : (q.1 == k) with
    | true => simp [mapGet, hq]
    | false =>
      simp only [List.any_cons, hq, Bool.false_or] at h
      simpa [mapGet, hq] using ih h

theorem mapGet_map_update_ne {α : Type} (m : List (String × α)) {k k' : String}
    (v : α) (h : k' ≠ k) :
    mapGet (m.map (fun p => if p.1 == k then (k, v) else p)) k' = mapGet m k' := by
  induction m with
  | nil => rfl
  | cons q t ih =>
    cases hq : (q.1 == k) with
    | true =>
      have hq' : q.1 = k := by simpa using hq
      have h1 : (k == k') = false := beq_eq_false_iff_ne.mpr fun hh => h hh.symm
      have h2 : (q.1 == k') = false := by rw [hq']; exact h1
      simpa [mapGet, hq, h1, h2] using ih
    | false =>
      cases hqk : (q.1 == k') with
      | true => simp [mapGet, hq, hqk]
      | false => simpa [mapGet, hq, hqk] using ih

theorem mapGet_append {α : Type} (m n : List (String × α)) (k : String) :
    mapGet (m ++ n) k = (mapGet m k).or (mapGet n k) := by
  induction m with
  | nil => simp [mapGet]
  | cons q t ih =>
    cases hq : (q.1 == k) with
    | true => simp [mapGet, hq]
    | false => simp [mapGet, hq, ih]

theorem mapGet_mapSet_self {α : Type} (m : List (String × α)) (k : String)
    (v : α) : mapGet (mapSet m k v) k = some v := by
  cases h : m.any (fun p => p.1 == k) with
  | true =>
    simp only [mapSet, h, if_true]
    exact mapGet_map_update_self h
  | false =>
    simp only [mapSet, h, Bool.false_eq_true, if_false]
    rw [mapGet_append, mapGet_of_not_mem h]
    simp [mapGet]

theorem mapGet_mapSet_ne {α : Type} (m : List (String × α)) {k k' : String}
    (v : α) (h : k' ≠ k) : mapGet (mapSet m k v) k' = mapGet m k' := by
  cases hA : m.any (fun p => p.1 == k) with
  | true =>
    simp only [mapSet, hA, if_true]
    exact mapGet_map_update_ne m v h
  | false =>
    simp only [mapSet, hA, Bool.false_eq_true, if_false]
    rw [mapGet_append]
    have hx : mapGet [(k, v)] k' = none := by
      have : (k == k') = false := beq_eq_false_iff_ne.mpr fun hh => h hh.symm
      simp [mapGet, this]
    rw [hx]
    cases mapGet m k' <;> rfl

theorem mapGet_mapDelete_self {α : Type} (m : List (String × α)) (k : String) :
    mapGet (mapDelete m k) k = none := by
  induction m with
  | nil => rfl
  | cons q t ih =>
    cases hq : (q.1 == k) with
    | true => simpa [mapDelete, List.filter_cons, hq] using ih
    | false => simpa [mapGet, mapDelete, List.filter_cons, hq] using ih

theorem mem_mapSet {α : Type} {m : List (String × α)} {k : String} {v : α}
    {e : String × α} (he : e ∈ mapSet m k v) : e ∈ m ∨ e = (k, v) := by
  unfold mapSet at he
  by_cases h : m.any (fun p => p.1 == k) = true
  · rw [if_pos h] at he
    obtain ⟨q, hq, hqe⟩ := List.mem_map.mp he
    by_cases hqk : (q.1 == k) = true
    · right
      rw [if_pos hqk] at hqe
      exact hqe.symm
    · left
      rw [if_neg hqk] at hqe
      exact hqe ▸ hq
  · rw [if_neg h] at he
    rcases List.mem_append.mp he with h1 | h1
    · exact Or.inl h1
    · exact Or.inr (List.mem_singleton.mp h1)

theorem mem_mapDelete {α : Type} {m : List (String × α)} {k : String}
    {e : String × α} (he : e ∈ mapDelete m k) : e ∈ m :=
  List.mem_of_mem_filter he

example : validateWasmBinary goodBytes = .ok () := by decide
example : demoId = "0123456789abcdef" := by decide
example : mapGet demoLoaded.moduleCache demoId = some demoRecord := by decide
example : demoLoaded.compileCount = 1 := by decide
example : demoLeaked.activeInstances.length = 1 := by decide
example : (executeFunction demoHost 1 2 demoLoaded demoId "run" [] {}).1.success = true := by decide
example : (getStats demoLoaded).cacheHitRate = 95 / 100 := rfl
example : validateWasmBinary [0, 0, 0, 0] = .error "Invalid WebAssembly binary: wrong magic number" := by decide

/-! ### Claim theorems -/

/-- Counterexample to claim C2: with `enableWasi: true` the source fails
inside `createInstance` — the wasi stub built by `createWasi` has no
`start` method — before the export lookup, so invoking a missing export
does NOT yield the function-not-found outcome there (it is still a
tagged failure, not a crash). -/
theorem executeFunction_wasi_failure_preempts_function_not_found :
    (executeFunction demoHost 1 2 demoLoaded demoId "nope" []
        { enableWasi := some true }).1 = failResult "wasi.start is not a function" ∧
    failResult "wasi.start is not a function" ≠
      failResult ("Function " ++ "nope" ++ " not found in module") := by
  constructor
  · decide
  · decide

/-- Claim C2 (amended): `executeFunction` never throws past its boundary:
every input yields a tagged result (success with no error, or failure
with an error message attached).  When instance creation succeeds
(`enableWasi` is not `true`), invoking an export name absent from the
module's exports yields the function-not-found failure result; with
`enableWasi` set to `true` every invocation fails earlier, inside
`createInstance`, with the wasi-start error. -/
theorem executeFunction_no_host_crash (host : Host) (t0 tEnd : Nat)
    (s : RuntimeState) (moduleId functionName : String) (args : List Int)
    (config : WasmExecutionConfig) :
    (((executeFunction host t0 tEnd s moduleId functionName args config).1.success = true ∧
      (executeFunction host t0 tEnd s moduleId functionName args config).1.error = none) ∨
     ((executeFunction host t0 tEnd s moduleId functionName args config).1.success = false ∧
      ((executeFunction host t0 tEnd s moduleId functionName args config).1.error).isSome = true)) ∧
    (∀ r : ModuleRecord, mapGet s.moduleCache moduleId = some r →
      config.enableWasi ≠ some true →
      host.exportsOf r.moduleBytes functionName = none →
      (executeFunction host t0 tEnd s moduleId functionName args config).1 =
        failResult ("Function " ++ functionName ++ " not found in module")) := by
  constructor
  · cases hm : mapGet s.moduleCache moduleId with
    | none => simp [executeFunction, hm, failResult]
    | some r =>
      by_cases hw : config.enableWasi = some true
      · simp [executeFunction, hm, hw, failResult]
      · cases he : host.exportsOf r.moduleBytes functionName with
        | none => simp [executeFunction, hm, hw, he, failResult]
        | some f =>
          cases hf : f args with
          | error msg => simp [executeFunction, hm, hw, he, hf, failResult]
          | ok v => simp [executeFunction, hm, hw, he, hf]
  · intro r hm hw he
    simp [executeFunction, hm, hw, he]

/-- Witness for C2's amended claim at a concrete input: the demo module
is cached, the default config does not enable wasi, its exports lack
`nope`, and the call returns the function-not-found failure result. -/
theorem executeFunction_no_host_crash_witness :
    (mapGet demoLoaded.moduleCache demoId = some demoRecord ∧
     ({} : WasmExecutionConfig).enableWasi ≠ some true ∧
     demoHost.exportsOf demoRecord.moduleBytes "nope" = none) ∧
    (executeFunction demoHost 1 2 demoLoaded demoId "nope" [] {}).1 =
      failResult ("Function " ++ "nope" ++ " not found in module") :=
  ⟨⟨by decide, by decide, rfl⟩,
   (executeFunction_no_host_crash demoHost 1 2 demoLoaded demoId "nope" [] {}).2
     demoRecord (by decide) (by decide) rfl⟩

/-- Claim C9: whenever `executeFunction` fails, the returned result is
exactly the zeroed failure record: `result` null, `executionTime` 0 (not
the elapsed wall-clock time), `memoryUsed` 0, `instructions` 0,
`success` false, with an error message attached. -/
theorem executeFunction_failure_zeroed (host : Host) (t0 tEnd : Nat)
    (s : RuntimeState) (moduleId functionName : String) (args : List Int)
    (config : WasmExecutionConfig)
    (h : (executeFunction host t0 tEnd s moduleId functionName args config).1.success = false) :
    (executeFunction host t0 tEnd s moduleId functionName args config).1.result = none ∧
    (executeFunction host t0 tEnd s moduleId functionName args config).1.executionTime = 0 ∧
    (executeFunction host t0 tEnd s moduleId functionName args config).1.memoryUsed = 0 ∧
    (executeFunction host t0 tEnd s moduleId functionName args config).1.instructions = 0 ∧
    ((executeFunction host t0 tEnd s moduleId functionName args config).1.error).isSome = true := by
  revert h
  cases hm : mapGet s.moduleCache moduleId with
  | none => intro _; simp [executeFunction, hm, failResult]
  | some r =>
    by_cases hw : config.enableWasi = some true
    · intro _; simp [executeFunction, hm, hw, failResult]
    · cases he : host.exportsOf r.moduleBytes functionName with
      | none => intro _; simp [executeFunction, hm, hw, he, failResult]
      | some f =>
        cases hf : f args with
        | error msg => intro _; simp [executeFunction, hm, hw, he, hf, failResult]
        | ok v => simp [executeFunction, hm, hw, he, hf]

/-- Witness for C9 at a concrete input: a failed call (missing export)
after 100 elapsed milliseconds still reports `executionTime = 0`. -/
theorem executeFunction_failure_zeroed_witness :
    (executeFunction demoHost 1 101 demoLoaded demoId "nope" [] {}).1.success = false ∧
    ((executeFunction demoHost 1 101 demoLoaded demoId "nope" [] {}).1.result = none ∧
     (executeFunction demoHost 1 101 demoLoaded demoId "nope" [] {}).1.executionTime = 0 ∧
     (executeFunction demoHost 1 101 demoLoaded demoId "nope" [] {}).1.memoryUsed = 0 ∧
     (executeFunction demoHost 1 101 demoLoaded demoId "nope" [] {}).1.instructions = 0 ∧
     ((executeFunction demoHost 1 101 demoLoaded demoId "nope" [] {}).1.error).isSome = true) :=
  ⟨by decide,
   executeFunction_failure_zeroed demoHost 1 101 demoLoaded demoId "nope" [] {} (by decide)⟩

/-- Claim C6 (code evaluated at the failing configuration): the
`maxExecutionTime` budget is never consulted by `executeFunction` — the
result and the post-state are identical under any two configurations
that differ only in `maxExecutionTime`, so no deadline is installed, no
interruption happens, and no timed-out outcome exists. -/
theorem executeFunction_ignores_maxExecutionTime (host : Host) (t0 tEnd : Nat)
    (s : RuntimeState) (moduleId functionName : String) (args : List Int)
    (config : WasmExecutionConfig) (budget : Option Nat) :
    executeFunction host t0 tEnd s moduleId functionName args
        { config with maxExecutionTime := budget } =
      executeFunction host t0 tEnd s moduleId functionName args config := rfl

/-- Counterexample to claim C5: loading the same bytes a second time is
a cache hit (the state does not change), yet the reported
`cacheHitRate` does not increase — it stays at the hard-coded value. -/
theorem cacheHitRate_unchanged_by_cache_hit :
    (loadModule demoHost 1 goodBytes {} demoLoaded).2 = demoLoaded ∧
    (getStats (loadModule demoHost 1 goodBytes {} demoLoaded).2).cacheHitRate =
      (getStats demoLoaded).cacheHitRate := by
  constructor
  · decide
  · rfl

/-- Claim C5 (amended): `cacheHitRate` in every stats snapshot is the
hard-coded constant 0.95; no hit or miss counters exist and the value
never changes. -/
theorem getStats_cacheHitRate_constant (s : RuntimeState) :
    (getStats s).cacheHitRate = 95 / 100 := rfl

/-- Counterexample to claim C7: after a failed invocation the leaked
instance is live and references the only cached module, yet `clearCache`
removes that module from the cache anyway. -/
theorem clearCache_removes_referenced_module :
    (mapGet demoLeaked.moduleCache demoId).isSome = true ∧
    demoLeaked.activeInstances.length = 1 ∧
    mapGet demoLeaked.activeInstances (generateInstanceId demoId "nope" 1) =
      some { moduleId := demoId, functionName := "nope",
             createdAt := 1, memoryUsed := none } ∧
    mapGet (clearCache demoLeaked).moduleCache demoId = none ∧
    (clearCache demoLeaked).activeInstances = demoLeaked.activeInstances := by
  refine ⟨by decide, by decide, by decide, rfl, rfl⟩

/-- Claim C7 (amended): `clearCache` unconditionally empties the module
cache — live references are not consulted (no reference count exists) —
while `loadModule` never removes a cached entry. -/
theorem moduleCache_removal_is_unconditional :
    (∀ s : RuntimeState, (clearCache s).moduleCache = [] ∧
      (clearCache s).activeInstances = s.activeInstances) ∧
    (∀ (host : Host) (now : Nat) (bytes : List Nat) (config : WasmModuleConfig)
        (s : RuntimeState) (id : String),
      (mapGet s.moduleCache id).isSome = true →
      (mapGet ((loadModule host now bytes config s).2).moduleCache id).isSome = true) := by
  constructor
  · exact fun s => ⟨rfl, rfl⟩
  · intro host now bytes config s id h
    cases hA : loadPhaseA host bytes config s with
    | hit mid => simpa [loadModule, hA] using h
    | invalid msg => simpa [loadModule, hA] using h
    | pending p =>
      simp only [loadModule, hA, loadPhaseB]
      by_cases hid : id = p.moduleId
      · subst hid
        rw [mapGet_mapSet_self]
        rfl
      · rw [mapGet_mapSet_ne _ _ hid]
        exact h

/-- Witness for C7's amended claim at a concrete input: the demo module
stays cached across a further `loadModule` call. -/
theorem moduleCache_removal_is_unconditional_witness :
    (mapGet demoLoaded.moduleCache demoId).isSome = true ∧
    (mapGet ((loadModule demoHost 5 goodBytes {} demoLoaded).2).moduleCache demoId).isSome = true :=
  ⟨by decide,
   moduleCache_removal_is_unconditional.2 demoHost 5 goodBytes {} demoLoaded demoId (by decide)⟩

/-- Counterexample to claim C1: on the missing-export path and on the
guest-trap path the call returns with the instance still registered in
`activeInstances` — the `catch` block of `executeFunction` does not
delete it. -/
theorem executeFunction_leaks_instance_on_failure :
    (executeFunction demoHost 1 2 demoLoaded demoId "nope" [] {}).1.success = false ∧
    (executeFunction demoHost 1 2 demoLoaded demoId "nope" [] {}).2.activeInstances.length = 1 ∧
    (executeFunction demoHost 3 4 demoLoaded demoId "boom" [] {}).1.success = false ∧
    (executeFunction demoHost 3 4 demoLoaded demoId "boom" [] {}).2.activeInstances.length = 1 := by
  decide

/-- Claim C1 (amended): when the module is cached and instance creation
succeeds (`enableWasi` is not `true`), `executeFunction` removes its
instance from the registry before returning only on normal completion;
on the missing-export and guest-trap paths the entry is still registered
when the call returns.  (With `enableWasi` set to `true` the call fails
inside `createInstance` before any instance is registered.) -/
theorem executeFunction_releases_only_on_success (host : Host) (t0 tEnd : Nat)
    (s : RuntimeState) (moduleId functionName : String) (args : List Int)
    (config : WasmExecutionConfig) (r : ModuleRecord)
    (hr : mapGet s.moduleCache moduleId = some r)
    (hw : config.enableWasi ≠ some true) :
    ((executeFunction host t0 tEnd s moduleId functionName args config).1.success = true →
      mapGet ((executeFunction host t0 tEnd s moduleId functionName args config).2).activeInstances
        (generateInstanceId moduleId functionName t0) = none) ∧
    ((executeFunction host t0 tEnd s moduleId functionName args config).1.success = false →
      mapGet ((executeFunction host t0 tEnd s moduleId functionName args config).2).activeInstances
        (generateInstanceId moduleId functionName t0) =
        some { moduleId := moduleId, functionName := functionName,
               createdAt := t0, memoryUsed := none }) := by
  cases he : host.exportsOf r.moduleBytes functionName with
  | none =>
    constructor <;> intro hs
    · simp [executeFunction, hr, hw, he, failResult] at hs
    · simp [executeFunction, hr, hw, he, mapGet_mapSet_self]
  | some f =>
    cases hf : f args with
    | error msg =>
      constructor <;> intro hs
      · simp [executeFunction, hr, hw, he, hf, failResult] at hs
      · simp [executeFunction, hr, hw, he, hf, mapGet_mapSet_self]
    | ok v =>
      constructor <;> intro hs
      · simp [executeFunction, hr, hw, he, hf, mapGet_mapDelete_self]
      · simp [executeFunction, hr, hw, he, hf] at hs

/-- Witness for C1's amended claim at a concrete input: the demo module
is cached, and after the failed `nope` call the instance entry is still
present. -/
theorem executeFunction_releases_only_on_success_witness :
    (mapGet demoLoaded.moduleCache demoId = some demoRecord ∧
     ({} : WasmExecutionConfig).enableWasi ≠ some true) ∧
    (((executeFunction demoHost 1 2 demoLoaded demoId "nope" [] {}).1.success = true →
      mapGet ((executeFunction demoHost 1 2 demoLoaded demoId "nope" [] {}).2).activeInstances
        (generateInstanceId demoId "nope" 1) = none) ∧
     ((executeFunction demoHost 1 2 demoLoaded demoId "nope" [] {}).1.success = false →
      mapGet ((executeFunction demoHost 1 2 demoLoaded demoId "nope" [] {}).2).activeInstances
        (generateInstanceId demoId "nope" 1) =
        some { moduleId := demoId, functionName := "nope",
               createdAt := 1, memoryUsed := none })) :=
  ⟨⟨by decide, by decide⟩,
   executeFunction_releases_only_on_success demoHost 1 2 demoLoaded demoId "nope" [] {}
     demoRecord (by decide) (by decide)⟩

/-- Counterexample to claim C3: the source validator accepts a 16-byte
module even when the configured maximum size is 8 (no size check
exists), and on a 4-byte buffer it reports a wrong-magic reason where
the claimed check order demands a dedicated too-short reason first. -/
theorem validateWasmBinary_deviates_from_spec_validator :
    validateWasmBinary bigBytes = .ok () ∧
    validateSpec 8 bigBytes = .error "module exceeds configured maximum size" ∧
    validateWasmBinary [0, 0, 0, 0] = .error "Invalid WebAssembly binary: wrong magic number" ∧
    validateSpec 8 [0, 0, 0, 0] = .error "module too short: need at least 8 bytes" := by
  decide

/-- Claim C3 (amended): `validateWasmBinary` accepts exactly the buffers
of length at least 8 whose first four bytes decode little-endian to the
magic constant and whose next four decode to version 1; it checks magic
before length (a short buffer fails inside a four-byte read, not via a
dedicated length check) and imposes no maximum size. -/
theorem validateWasmBinary_accepts_iff (buffer : List Nat) :
    validateWasmBinary buffer = .ok () ↔
      8 ≤ buffer.length ∧
      buffer.getD 0 0 + 256 * buffer.getD 1 0 + 65536 * buffer.getD 2 0 +
        16777216 * buffer.getD 3 0 = 0x6d736100 ∧
      buffer.getD 4 0 + 256 * buffer.getD 5 0 + 65536 * buffer.getD 6 0 +
        16777216 * buffer.getD 7 0 = 1 := by
  by_cases h8 : 8 ≤ buffer.length
  · have h4 : 0 + 4 ≤ buffer.length := by omega
    have h44 : 4 + 4 ≤ buffer.length := by omega
    simp only [validateWasmBinary, readUInt32LE, if_pos h4, if_pos h44]
    norm_num
    by_cases hm : buffer.getD 0 0 + 256 * buffer.getD 1 0 + 65536 * buffer.getD 2 0 +
        16777216 * buffer.getD 3 0 = 0x6d736100
    · by_cases hv : buffer.getD 4 0 + 256 * buffer.getD 5 0 + 65536 * buffer.getD 6 0 +
          16777216 * buffer.getD 7 0 = 1
      · simp_all
      · simp_all
    · simp_all
  · have hno : validateWasmBinary buffer ≠ .ok () := by
      by_cases h4 : 0 + 4 ≤ buffer.length
      · have h44 : ¬ (4 + 4 ≤ buffer.length) := by omega
        simp only [validateWasmBinary, readUInt32LE, if_pos h4, if_neg h44]
        split_ifs <;> simp
      · simp only [validateWasmBinary, readUInt32LE, if_neg h4]
        simp
    simp [hno, h8]

/-- Helper for C4: a successful `loadModule` returns the content-derived
module id and leaves (or puts) a record for it in the cache. -/
theorem loadPhaseA_hit_inv (host : Host) (bytes : List Nat)
    (config : WasmModuleConfig) (s : RuntimeState) (mid : String)
    (hA : loadPhaseA host bytes config s = .hit mid) :
    mid = generateModuleId host bytes ∧
    (mapGet s.moduleCache (generateModuleId host bytes)).isSome = true := by
  simp only [loadPhaseA] at hA
  cases hm : mapGet s.moduleCache (generateModuleId host bytes) with
  | none =>
    rw [hm] at hA
    cases hv : validateWasmBinary bytes with
    | error e => rw [hv] at hA; simp at hA
    | ok u => rw [hv] at hA; simp at hA
  | some r =>
    rw [hm] at hA
    simp only [LoadPhaseOutcome.hit.injEq] at hA
    exact ⟨hA.symm, rfl⟩

theorem loadPhaseA_pending_inv (host : Host) (bytes : List Nat)
    (config : WasmModuleConfig) (s : RuntimeState) (p : LoadPending)
    (hA : loadPhaseA host bytes config s = .pending p) :
    p = ⟨generateModuleId host bytes, bytes, config⟩ ∧
    mapGet s.moduleCache (generateModuleId host bytes) = none := by
  simp only [loadPhaseA] at hA
  cases hm : mapGet s.moduleCache (generateModuleId host bytes) with
  | some r => rw [hm] at hA; simp at hA
  | none =>
    rw [hm] at hA
    cases hv : validateWasmBinary bytes with
    | error e => rw [hv] at hA; simp at hA
    | ok u =>
      rw [hv] at hA
      simp only [LoadPhaseOutcome.pending.injEq] at hA
      exact ⟨hA.symm, rfl⟩

/-- Helper for C4: a successful `loadModule` returns the content-derived
module id and leaves (or puts) a record for it in the cache. -/
theorem loadModule_ok_id (host : Host) (now : Nat) (bytes : List Nat)
    (config : WasmModuleConfig) (s : RuntimeState) (id : String)
    (h : (loadModule host now bytes config s).1 = .ok id) :
    id = generateModuleId host bytes ∧
    (mapGet ((loadModule host now bytes config s).2).moduleCache id).isSome = true := by
  cases hA : loadPhaseA host bytes config s with
  | hit mid =>
    obtain ⟨hmid, hsome⟩ := loadPhaseA_hit_inv host bytes config s mid hA
    simp only [loadModule, hA, Except.ok.injEq] at h ⊢
    rw [← h, hmid]
    exact ⟨rfl, hsome⟩
  | invalid msg => simp [loadModule, hA] at h
  | pending p =>
    obtain ⟨hp, hnone⟩ := loadPhaseA_pending_inv host bytes config s p hA
    simp only [loadModule, hA, loadPhaseB, Except.ok.injEq] at h ⊢
    rw [← h]
    constructor
    · rw [hp]
    · rw [mapGet_mapSet_self]
      rfl

/-- Claim C4: the fingerprint of the bytes determines the cache entry —
after any successful load, loading the same bytes again returns the same
module id, changes nothing (the cached record is reused), and performs
no further compile. -/
theorem loadModule_identical_bytes_cache_hit (host : Host) (now1 now2 : Nat)
    (bytes : List Nat) (cfg1 cfg2 : WasmModuleConfig) (s : RuntimeState)
    (id : String) (h : (loadModule host now1 bytes cfg1 s).1 = .ok id) :
    (loadModule host now2 bytes cfg2 (loadModule host now1 bytes cfg1 s).2).1 = .ok id ∧
    (loadModule host now2 bytes cfg2 (loadModule host now1 bytes cfg1 s).2).2 =
      (loadModule host now1 bytes cfg1 s).2 ∧
    ((loadModule host now2 bytes cfg2 (loadModule host now1 bytes cfg1 s).2).2).compileCount =
      ((loadModule host now1 bytes cfg1 s).2).compileCount := by
  obtain ⟨hid, hsome⟩ := loadModule_ok_id host now1 bytes cfg1 s id h
  clear h
  rw [hid] at hsome ⊢
  generalize hs1 : (loadModule host now1 bytes cfg1 s).2 = s1 at hsome ⊢
  cases hm : mapGet s1.moduleCache (generateModuleId host bytes) with
  | none => rw [hm] at hsome; simp at hsome
  | some r =>
    have hA2 : loadPhaseA host bytes cfg2 s1 = .hit (generateModuleId host bytes) := by
      simp [loadPhaseA, hm]
    refine ⟨?_, ?_, ?_⟩ <;> simp [loadModule, hA2]

/-- Witness for C4 at a concrete input: the first load of `goodBytes`
succeeds and the second is a pure cache hit. -/
theorem loadModule_identical_bytes_cache_hit_witness :
    (loadModule demoHost 0 goodBytes {} initialState).1 = .ok demoId ∧
    ((loadModule demoHost 7 goodBytes {} (loadModule demoHost 0 goodBytes {} initialState).2).1 = .ok demoId ∧
     (loadModule demoHost 7 goodBytes {} (loadModule demoHost 0 goodBytes {} initialState).2).2 =
       (loadModule demoHost 0 goodBytes {} initialState).2 ∧
     ((loadModule demoHost 7 goodBytes {} (loadModule demoHost 0 goodBytes {} initialState).2).2).compileCount =
       ((loadModule demoHost 0 goodBytes {} initialState).2).compileCount) :=
  ⟨by decide,
   loadModule_identical_bytes_cache_hit demoHost 0 7 goodBytes {} {} initialState demoId (by decide)⟩

/-- Counterexample to claim C8: the schedule A1 A2 B1 B2 of two
`loadModule` calls for the same unseen bytes — both synchronous prefixes
run before either compile completes, which the `await` at
`engine.module` permits — performs two compiles, not one.  (Both `A`
steps are the same read-only evaluation on the same state, so one
equation describes both tasks.) -/
theorem loadModule_stampede_double_compile :
    loadPhaseA demoHost goodBytes {} initialState = .pending demoPending ∧
    ((loadPhaseB 1 demoPending (loadPhaseB 0 demoPending initialState).2).2).compileCount = 2 := by
  constructor
  · decide
  · decide

/-- Claim C8 (amended): there is no single-flight guard — whenever the
synchronous prefix of `loadModule` misses the cache, every overlapped
call that also ran its prefix before a compile completed performs its
own compile: two such calls raise the compile count by two. -/
theorem loadModule_no_single_flight (host : Host) (now1 now2 : Nat)
    (bytes : List Nat) (config : WasmModuleConfig) (s : RuntimeState)
    (p : LoadPending) (h : loadPhaseA host bytes config s = .pending p) :
    ((loadPhaseB now1 p s).2).compileCount = s.compileCount + 1 ∧
    ((loadPhaseB now2 p (loadPhaseB now1 p s).2).2).compileCount = s.compileCount + 2 := by
  constructor <;> simp [loadPhaseB]

/-- Witness for C8's amended claim at a concrete input. -/
theorem loadModule_no_single_flight_witness :
    loadPhaseA demoHost goodBytes {} initialState = .pending demoPending ∧
    (((loadPhaseB 3 demoPending initialState).2).compileCount = initialState.compileCount + 1 ∧
     ((loadPhaseB 4 demoPending (loadPhaseB 3 demoPending initialState).2).2).compileCount =
       initialState.compileCount + 2) :=
  ⟨by decide,
   loadModule_no_single_flight demoHost 3 4 goodBytes {} initialState demoPending (by decide)⟩

/-- Helper for C10: `executeFunction` preserves the absence of
`memoryUsed` on active-instance entries. -/
theorem instancesUntracked_exec (host : Host) (t0 tEnd : Nat)
    (s : RuntimeState) (moduleId functionName : String) (args : List Int)
    (config : WasmExecutionConfig) (hs : InstancesUntracked s) :
    InstancesUntracked (executeFunction host t0 tEnd s moduleId functionName args config).2 := by
  cases hm : mapGet s.moduleCache moduleId with
  | none => simpa [executeFunction, hm] using hs
  | some r =>
    have hset : InstancesUntracked { s with
        activeInstances := mapSet s.activeInstances
          (generateInstanceId moduleId functionName t0)
          { moduleId := moduleId, functionName := functionName,
            createdAt := t0, memoryUsed := none } } := by
      intro e he
      rcases mem_mapSet he with h1 | h1
      · exact hs e h1
      · rw [h1]
    by_cases hw : config.enableWasi = some true
    · simpa [executeFunction, hm, hw] using hs
    · cases he : host.exportsOf r.moduleBytes functionName with
      | none => simpa [executeFunction, hm, hw, he] using hset
      | some f =>
        cases hf : f args with
        | error msg => simpa [executeFunction, hm, hw, he, hf] using hset
        | ok v =>
          intro e hee
          simp only [executeFunction, hm, hw, he, hf] at hee
          exact hset e (mem_mapDelete hee)

/-- Helper for C10: every reachable runtime state has untracked
instances. -/
theorem reachable_untracked {s : RuntimeState} (h : Reachable s) :
    InstancesUntracked s := by
  induction h with
  | init => intro e he; simp [initialState] at he
  | load host now bytes config s hs ih =>
    cases hA : loadPhaseA host bytes config s with
    | hit mid => simpa [loadModule, hA] using ih
    | invalid msg => simpa [loadModule, hA] using ih
    | pending p => simpa [loadModule, hA, loadPhaseB] using ih
  | loadB now p s hs ih => simpa [loadPhaseB] using ih
  | exec host t0 tEnd s moduleId functionName args config hs ih =>
    exact instancesUntracked_exec host t0 tEnd s moduleId functionName args config ih
  | clear s hs ih => simpa [clearCache] using ih
  | cleanup now s hs ih =>
    intro e he
    simp only [cleanupInstances] at he
    exact ih e (List.mem_of_mem_filter he)

/-- Claim C10: in every reachable state the stats snapshot reports
`totalMemoryUsage = 0`: the sum ranges over a `memoryUsed` field that no
operation ever writes. -/
theorem getStats_totalMemoryUsage_zero (s : RuntimeState) (h : Reachable s) :
    (getStats s).totalMemoryUsage = 0 := by
  have hu := reachable_untracked h
  simp only [getStats]
  apply List.sum_eq_zero
  intro x hx
  obtain ⟨e, he, hxe⟩ := List.mem_map.mp hx
  rw [← hxe, hu e he]
  rfl

/-- Witness for C10 at a concrete reachable state that actually has an
active instance (the leaked one). -/
theorem getStats_totalMemoryUsage_zero_witness :
    Reachable demoLeaked ∧ (getStats demoLeaked).totalMemoryUsage = 0 := by
  have hload : Reachable demoLoaded := by
    show Reachable (loadModule demoHost 0 goodBytes {} initialState).2
    exact Reachable.load demoHost 0 goodBytes {} initialState Reachable.init
  have hr : Reachable demoLeaked := by
    show Reachable (executeFunction demoHost 1 2 demoLoaded demoId "nope" [] {}).2
    exact Reachable.exec demoHost 1 2 demoLoaded demoId "nope" [] {} hload
  exact ⟨hr, getStats_totalMemoryUsage_zero demoLeaked hr⟩

end Wasmify
